import Mathlib

/-!
Shallow embedding of the webhook-driven subscription-status reconciliation
backend (Go, PocketBase + Stripe glue).  The data model and the handler
functions are translated from `src/main.go` (the current version) and, where a
claim targets an earlier snapshot, from `src/unnamed/part_000` and
`src/unnamed/part_001`.  External collaborators (the Stripe SDK, the
`time` library, the echo HTTP framework) enter as explicit oracle
parameters or as small definitions modelling their documented behaviour.
-/

/-- Member record of the "member" collection: the fields read or written by
`main.go` (`email`, `name`, `stripe_customer_id`, `is_subscribed`, `program`),
plus the store-assigned `id` that `SaveRecord` keys on. -/
structure MemberRecord where
  id : String
  email : String
  name : String
  stripe_customer_id : String
  is_subscribed : Bool
  program : String
  deriving Repr, DecidableEq

/-- The record store: the "member" collection as an ordered list of records. -/
abbrev Store := List MemberRecord

/-- Embeds `app.Dao().FindFirstRecordByData("member", "stripe_customer_id", customerId)`:
the first record whose `stripe_customer_id` equals the given customer id, or
an error (`none`) when no record matches. -/
def findFirstRecordByData (s : Store) (customerId : String) : Option MemberRecord :=
  s.find? (fun m => m.stripe_customer_id == customerId)

/-- Embeds `app.Dao().SaveRecord(record)`: persist the modified record, keyed
by its store id. -/
def saveRecord (s : Store) (r : MemberRecord) : Store :=
  s.map (fun m => if m.id == r.id then r else m)

/-- Price reference carried by an invoice line item
(`invoice.Lines.Data[0].Price`, whose `Product.ID` is read). -/
structure PriceRef where
  productId : String
  deriving Repr, DecidableEq

/-- One invoice line item; only the optional price is read by the code. -/
structure LineItem where
  price : Option PriceRef
  deriving Repr, DecidableEq

/-- The fields of `stripe.Invoice` the handlers read: the nullable
subscription reference (`invoice.Subscription`, only nil-checked), the
customer id (`invoice.Customer.ID`) and the line items
(`invoice.Lines.Data`, read only by the part_001 snapshot's handler). -/
structure Invoice where
  subscription : Option String
  customer : String
  lines : List LineItem
  deriving Repr, DecidableEq

/-- The field of `stripe.Subscription` the handler reads: `sub.Customer.ID`. -/
structure Subscription where
  customer : String
  deriving Repr, DecidableEq

/-- Failure modes of a reconciliation handler.  `recordNotFound` is the
wrapped "error finding member record" from a failed `FindFirstRecordByData`;
`productLookupFailed` is the wrapped "error finding stripe product" from a
failed `product.Get` (part_001 snapshot only). -/
inductive ReconcileErr where
  | recordNotFound
  | productLookupFailed
  deriving Repr, DecidableEq

/-- Embeds `handleInvoicePaid` from `src/main.go`: nil-subscription guard,
member lookup by customer id, then `is_subscribed := true` saved back. -/
def handleInvoicePaid (invoice : Invoice) (s : Store) : Except ReconcileErr Store :=
  match invoice.subscription with
  | none => .ok s
  | some _ =>
    match findFirstRecordByData s invoice.customer with
    | none => .error .recordNotFound
    | some record => .ok (saveRecord s { record with is_subscribed := true })

/-- Embeds `handleInvoicePaymentFailed` from `src/main.go`: identical to
`handleInvoicePaid` except the flag is set to `false`. -/
def handleInvoicePaymentFailed (invoice : Invoice) (s : Store) : Except ReconcileErr Store :=
  match invoice.subscription with
  | none => .ok s
  | some _ =>
    match findFirstRecordByData s invoice.customer with
    | none => .error .recordNotFound
    | some record => .ok (saveRecord s { record with is_subscribed := false })

/-- Embeds `handleSubscriptionDeleted` from `src/main.go`: member lookup by
`sub.Customer.ID`, then `is_subscribed := false` saved back (no guard). -/
def handleSubscriptionDeleted (sub : Subscription) (s : Store) : Except ReconcileErr Store :=
  match findFirstRecordByData s sub.customer with
  | none => .error .recordNotFound
  | some record => .ok (saveRecord s { record with is_subscribed := false })

/-- A decoded webhook event after the `switch event.Type` dispatch in the
`/webhook` route of `src/main.go`: the three handled tags with their decoded
typed payloads, and the default branch for every other tag. -/
inductive StripeEvent where
  | invoicePaid (inv : Invoice)
  | invoicePaymentFailed (inv : Invoice)
  | subscriptionDeleted (sub : Subscription)
  | other (eventType : String)
  deriving Repr, DecidableEq

/-- Dispatch of a decoded event to its handler, per the `switch` in the
`/webhook` route of `src/main.go`; unhandled tags are acknowledged with no
side effect. -/
def reconcile (e : StripeEvent) (s : Store) : Except ReconcileErr Store :=
  match e with
  | .invoicePaid inv => handleInvoicePaid inv s
  | .invoicePaymentFailed inv => handleInvoicePaymentFailed inv s
  | .subscriptionDeleted sub => handleSubscriptionDeleted sub s
  | .other _ => .ok s

/-- Store state after one delivery of an event.  Every failure of `reconcile`
occurs before its single write, so a failed delivery leaves the store as it
was. -/
def deliver (e : StripeEvent) (s : Store) : Store :=
  match reconcile e s with
  | .ok s' => s'
  | .error _ => s

/-- Unfolding lemma: lookup in the empty store fails. -/
theorem findFirst_nil (c : String) : findFirstRecordByData [] c = none := rfl

/-- Unfolding lemma: lookup in a non-empty store checks the head first. -/
theorem findFirst_cons (m : MemberRecord) (tl : Store) (c : String) :
    findFirstRecordByData (m :: tl) c =
      if (m.stripe_customer_id == c) = true then some m else findFirstRecordByData tl c := by
  by_cases h : (m.stripe_customer_id == c) = true
  · rw [if_pos h]
    exact List.find?_cons_of_pos _ h
  · rw [if_neg h]
    exact List.find?_cons_of_neg _ (by simpa using h)

/-- Unfolding lemma: saving into the empty store is the empty store. -/
theorem saveRecord_nil (r : MemberRecord) : saveRecord [] r = [] := rfl

/-- Unfolding lemma: saving replaces the head when the ids agree. -/
theorem saveRecord_cons (m : MemberRecord) (tl : Store) (r : MemberRecord) :
    saveRecord (m :: tl) r =
      (if (m.id == r.id) = true then r else m) :: saveRecord tl r := rfl

/-- A lookup that succeeded still succeeds, with the updated record, after
saving an update that changes neither the record id nor the customer id. -/
theorem findFirst_saveRecord (s : Store) (c : String) (r r' : MemberRecord)
    (hfind : findFirstRecordByData s c = some r)
    (hid : r'.id = r.id) (hcust : r'.stripe_customer_id = r.stripe_customer_id) :
    findFirstRecordByData (saveRecord s r') c = some r' := by
  have hrc : (fun m => m.stripe_customer_id == c) r = true := by
    unfold findFirstRecordByData at hfind
    exact List.find?_some (p := fun m => m.stripe_customer_id == c) (a := r) hfind
  have hrc' : (r'.stripe_customer_id == c) = true := by rw [hcust]; exact hrc
  induction s with
  | nil =>
    rw [findFirst_nil] at hfind
    exact absurd hfind (by simp)
  | cons m tl ih =>
    rw [saveRecord_cons]
    by_cases hidm : (m.id == r'.id) = true
    · rw [if_pos hidm, findFirst_cons, if_pos hrc']
    · rw [if_neg hidm, findFirst_cons]
      rw [findFirst_cons] at hfind
      by_cases hm : (m.stripe_customer_id == c) = true
      · exfalso
        rw [if_pos hm] at hfind
        have hmr : m = r := by injection hfind
        apply hidm
        rw [hmr, hid]
        exact beq_self_eq_true _
      · rw [if_neg hm]
        rw [if_neg hm] at hfind
        exact ih hfind

/-- Saving the same record twice is the same as saving it once. -/
theorem saveRecord_saveRecord (s : Store) (r : MemberRecord) :
    saveRecord (saveRecord s r) r = saveRecord s r := by
  induction s with
  | nil => rfl
  | cons m tl ih =>
    rw [saveRecord_cons, saveRecord_cons, ih]
    by_cases h : (m.id == r.id) = true
    · rw [if_pos h, if_pos (beq_self_eq_true r.id)]
    · rw [if_neg h, if_neg h]

/-- C1: an `invoice.paid` event whose invoice has a non-null subscription
reference and whose customer id matches a stored member record makes the
handler succeed, persisting that record with `is_subscribed = true`,
whatever the flag's prior value; the updated record is what a subsequent
lookup by the same customer id returns. -/
theorem invoicePaid_sets_subscribed (inv : Invoice) (s : Store) (r : MemberRecord)
    (hsub : inv.subscription.isSome)
    (hfind : findFirstRecordByData s inv.customer = some r) :
    handleInvoicePaid inv s = .ok (saveRecord s { r with is_subscribed := true }) ∧
    findFirstRecordByData (saveRecord s { r with is_subscribed := true }) inv.customer
      = some { r with is_subscribed := true } := by
  constructor
  · match hs : inv.subscription with
    | none => rw [hs] at hsub; simp at hsub
    | some sid => unfold handleInvoicePaid; rw [hs, hfind]
  · exact findFirst_saveRecord s inv.customer r _ hfind rfl rfl

/-- Witness for C1 at a concrete input: one member record with
`is_subscribed = false` and a paid invoice for its customer. -/
theorem invoicePaid_sets_subscribed_witness :
    (Invoice.mk (some "sub_9") "cus_1" []).subscription.isSome ∧
    findFirstRecordByData [MemberRecord.mk "m1" "e@x" "Ann" "cus_1" false ""] "cus_1"
      = some (MemberRecord.mk "m1" "e@x" "Ann" "cus_1" false "") ∧
    handleInvoicePaid (Invoice.mk (some "sub_9") "cus_1" [])
        [MemberRecord.mk "m1" "e@x" "Ann" "cus_1" false ""]
      = .ok [MemberRecord.mk "m1" "e@x" "Ann" "cus_1" true ""] := by
  refine ⟨by decide, by decide, ?_⟩
  have h := invoicePaid_sets_subscribed (Invoice.mk (some "sub_9") "cus_1" [])
    [MemberRecord.mk "m1" "e@x" "Ann" "cus_1" false ""]
    (MemberRecord.mk "m1" "e@x" "Ann" "cus_1" false "") (by decide) (by decide)
  rw [h.1, Except.ok.injEq]
  decide

/-- C4: an `invoice.paid` or `invoice.payment_failed` event whose invoice has
a null subscription reference makes its handler return success with the store
unchanged: zero record mutations. -/
theorem nullSubscription_noop (inv : Invoice) (s : Store)
    (hnull : inv.subscription = none) :
    handleInvoicePaid inv s = .ok s ∧ handleInvoicePaymentFailed inv s = .ok s := by
  unfold handleInvoicePaid handleInvoicePaymentFailed
  rw [hnull]
  exact ⟨rfl, rfl⟩

/-- Witness for C4 at a concrete input: an invoice with no subscription
reference, delivered over a one-record store. -/
theorem nullSubscription_noop_witness :
    (Invoice.mk none "cus_1" []).subscription = none ∧
    handleInvoicePaid (Invoice.mk none "cus_1" [])
        [MemberRecord.mk "m1" "e@x" "Ann" "cus_1" true "mma"]
      = .ok [MemberRecord.mk "m1" "e@x" "Ann" "cus_1" true "mma"] ∧
    handleInvoicePaymentFailed (Invoice.mk none "cus_1" [])
        [MemberRecord.mk "m1" "e@x" "Ann" "cus_1" true "mma"]
      = .ok [MemberRecord.mk "m1" "e@x" "Ann" "cus_1" true "mma"] := by
  refine ⟨rfl, ?_, ?_⟩
  · exact (nullSubscription_noop (Invoice.mk none "cus_1" [])
      [MemberRecord.mk "m1" "e@x" "Ann" "cus_1" true "mma"] rfl).1
  · exact (nullSubscription_noop (Invoice.mk none "cus_1" [])
      [MemberRecord.mk "m1" "e@x" "Ann" "cus_1" true "mma"] rfl).2

/-- C3: a `customer.subscription.deleted` event whose customer matches a
stored record makes the handler persist that record with
`is_subscribed = false`; when no record matches, the handler fails with the
not-found error and the delivery leaves the store unchanged. -/
theorem subscriptionDeleted_reconciles (sub : Subscription) (s : Store) :
    (∀ r, findFirstRecordByData s sub.customer = some r →
      handleSubscriptionDeleted sub s = .ok (saveRecord s { r with is_subscribed := false }) ∧
      findFirstRecordByData (saveRecord s { r with is_subscribed := false }) sub.customer
        = some { r with is_subscribed := false }) ∧
    (findFirstRecordByData s sub.customer = none →
      handleSubscriptionDeleted sub s = .error .recordNotFound ∧
      deliver (.subscriptionDeleted sub) s = s) := by
  constructor
  · intro r hfind
    constructor
    · unfold handleSubscriptionDeleted
      rw [hfind]
    · exact findFirst_saveRecord s sub.customer r _ hfind rfl rfl
  · intro hnone
    have herr : handleSubscriptionDeleted sub s = .error .recordNotFound := by
      unfold handleSubscriptionDeleted
      rw [hnone]
    refine ⟨herr, ?_⟩
    simp only [deliver, reconcile]
    rw [herr]

/-- Witness for C3 at concrete inputs: a matching record gets its flag
cleared; a store with no record for `cus_missing` is left untouched after the
failed delivery. -/
theorem subscriptionDeleted_reconciles_witness :
    (findFirstRecordByData [MemberRecord.mk "m1" "e@x" "Ann" "cus_1" true "mma"] "cus_1"
        = some (MemberRecord.mk "m1" "e@x" "Ann" "cus_1" true "mma") ∧
     handleSubscriptionDeleted (Subscription.mk "cus_1")
        [MemberRecord.mk "m1" "e@x" "Ann" "cus_1" true "mma"]
       = .ok [MemberRecord.mk "m1" "e@x" "Ann" "cus_1" false "mma"]) ∧
    (findFirstRecordByData [MemberRecord.mk "m1" "e@x" "Ann" "cus_1" true "mma"] "cus_missing"
        = none ∧
     handleSubscriptionDeleted (Subscription.mk "cus_missing")
        [MemberRecord.mk "m1" "e@x" "Ann" "cus_1" true "mma"]
       = .error .recordNotFound ∧
     deliver (.subscriptionDeleted (Subscription.mk "cus_missing"))
        [MemberRecord.mk "m1" "e@x" "Ann" "cus_1" true "mma"]
       = [MemberRecord.mk "m1" "e@x" "Ann" "cus_1" true "mma"]) := by
  constructor
  · refine ⟨by decide, ?_⟩
    have h := ((subscriptionDeleted_reconciles (Subscription.mk "cus_1")
        [MemberRecord.mk "m1" "e@x" "Ann" "cus_1" true "mma"]).1
      (MemberRecord.mk "m1" "e@x" "Ann" "cus_1" true "mma") (by decide)).1
    rw [h, Except.ok.injEq]
    decide
  · refine ⟨by decide, ?_⟩
    exact (subscriptionDeleted_reconciles (Subscription.mk "cus_missing")
        [MemberRecord.mk "m1" "e@x" "Ann" "cus_1" true "mma"]).2 (by decide)

/-- C2: redelivering the identical event leaves the store in the same final
state as delivering it once, for every event (the three handled tags and the
acknowledged default branch) and every initial store. -/
theorem deliver_idempotent (e : StripeEvent) (s : Store) :
    deliver e (deliver e s) = deliver e s := by
  cases e with
  | other t => rfl
  | invoicePaid inv =>
    cases hs : inv.subscription with
    | none =>
      have h1 : deliver (.invoicePaid inv) s = s := by
        simp only [deliver, reconcile, handleInvoicePaid]
        rw [hs]
      rw [h1, h1]
    | some sid =>
      cases hfind : findFirstRecordByData s inv.customer with
      | none =>
        have h1 : deliver (.invoicePaid inv) s = s := by
          simp only [deliver, reconcile, handleInvoicePaid]
          rw [hs, hfind]
        rw [h1, h1]
      | some r =>
        have h1 : deliver (.invoicePaid inv) s
            = saveRecord s { r with is_subscribed := true } := by
          simp only [deliver, reconcile, handleInvoicePaid]
          rw [hs, hfind]
        have hfind2 : findFirstRecordByData (saveRecord s { r with is_subscribed := true })
            inv.customer = some { r with is_subscribed := true } :=
          findFirst_saveRecord s inv.customer r _ hfind rfl rfl
        have h2 : deliver (.invoicePaid inv) (saveRecord s { r with is_subscribed := true })
            = saveRecord (saveRecord s { r with is_subscribed := true })
                { r with is_subscribed := true } := by
          simp only [deliver, reconcile, handleInvoicePaid]
          rw [hs, hfind2]
        rw [h1, h2, saveRecord_saveRecord]
  | invoicePaymentFailed inv =>
    cases hs : inv.subscription with
    | none =>
      have h1 : deliver (.invoicePaymentFailed inv) s = s := by
        simp only [deliver, reconcile, handleInvoicePaymentFailed]
        rw [hs]
      rw [h1, h1]
    | some sid =>
      cases hfind : findFirstRecordByData s inv.customer with
      | none =>
        have h1 : deliver (.invoicePaymentFailed inv) s = s := by
          simp only [deliver, reconcile, handleInvoicePaymentFailed]
          rw [hs, hfind]
        rw [h1, h1]
      | some r =>
        have h1 : deliver (.invoicePaymentFailed inv) s
            = saveRecord s { r with is_subscribed := false } := by
          simp only [deliver, reconcile, handleInvoicePaymentFailed]
          rw [hs, hfind]
        have hfind2 : findFirstRecordByData (saveRecord s { r with is_subscribed := false })
            inv.customer = some { r with is_subscribed := false } :=
          findFirst_saveRecord s inv.customer r _ hfind rfl rfl
        have h2 : deliver (.invoicePaymentFailed inv)
              (saveRecord s { r with is_subscribed := false })
            = saveRecord (saveRecord s { r with is_subscribed := false })
                { r with is_subscribed := false } := by
          simp only [deliver, reconcile, handleInvoicePaymentFailed]
          rw [hs, hfind2]
        rw [h1, h2, saveRecord_saveRecord]
  | subscriptionDeleted sub =>
    cases hfind : findFirstRecordByData s sub.customer with
    | none =>
      have h1 : deliver (.subscriptionDeleted sub) s = s := by
        simp only [deliver, reconcile, handleSubscriptionDeleted]
        rw [hfind]
      rw [h1, h1]
    | some r =>
      have h1 : deliver (.subscriptionDeleted sub) s
          = saveRecord s { r with is_subscribed := false } := by
        simp only [deliver, reconcile, handleSubscriptionDeleted]
        rw [hfind]
      have hfind2 : findFirstRecordByData (saveRecord s { r with is_subscribed := false })
          sub.customer = some { r with is_subscribed := false } :=
        findFirst_saveRecord s sub.customer r _ hfind rfl rfl
      have h2 : deliver (.subscriptionDeleted sub)
            (saveRecord s { r with is_subscribed := false })
          = saveRecord (saveRecord s { r with is_subscribed := false })
              { r with is_subscribed := false } := by
        simp only [deliver, reconcile, handleSubscriptionDeleted]
        rw [hfind2]
      rw [h1, h2, saveRecord_saveRecord]

/-- Identity-relevant projection of a record: its store id and its
`stripe_customer_id` (the spec's `customer_ref`). -/
def customerView (m : MemberRecord) : String × String :=
  (m.id, m.stripe_customer_id)

/-- Embeds the success path of the `OnRecordAfterCreateRequest("member")`
hook in `src/main.go`: the id of the customer returned by `customer.New`
(external call, its result passed in here) is written to the new record's
`stripe_customer_id` and the record is saved. -/
def provisionMember (newCustomerId : String) (record : MemberRecord) (s : Store) :
    Store × MemberRecord :=
  let updated := { record with stripe_customer_id := newCustomerId }
  (saveRecord s updated, updated)

/-- Saving an update that changes neither the id nor the customer id of a
record present in a store with pairwise-distinct ids leaves every record's
(id, customer_ref) pair unchanged. -/
theorem saveRecord_preserves_customerView (s : Store) (r r' : MemberRecord)
    (hids : (s.map (fun m => m.id)).Nodup)
    (hmem : r ∈ s) (hid : r'.id = r.id) (hcust : r'.stripe_customer_id = r.stripe_customer_id) :
    (saveRecord s r').map customerView = s.map customerView := by
  unfold saveRecord
  rw [List.map_map]
  apply List.map_congr_left
  intro m hm
  simp only [Function.comp_apply]
  by_cases h : (m.id == r'.id) = true
  · have heq : m.id = r.id := by rw [← hid]; exact eq_of_beq h
    have hmr : m = r := List.inj_on_of_nodup_map hids hm hmem heq
    rw [if_pos h, hmr]
    unfold customerView
    rw [hid, hcust]
  · rw [if_neg h]

/-- C9: the reconciler never writes `customer_ref`: over a store with
pairwise-distinct record ids, delivering any webhook event preserves every
record's (id, customer_ref) pair; and the provisioning hook writes the
provisioned customer id into the created record's `customer_ref`. -/
theorem customerRef_never_reassigned (e : StripeEvent) (s : Store)
    (hids : (s.map (fun m => m.id)).Nodup) :
    (deliver e s).map customerView = s.map customerView ∧
    ∀ cid r st, (provisionMember cid r st).2.stripe_customer_id = cid := by
  refine ⟨?_, fun cid r st => rfl⟩
  cases e with
  | other t => rfl
  | invoicePaid inv =>
    cases hs : inv.subscription with
    | none =>
      have h1 : deliver (.invoicePaid inv) s = s := by
        simp only [deliver, reconcile, handleInvoicePaid]
        rw [hs]
      rw [h1]
    | some sid =>
      cases hfind : findFirstRecordByData s inv.customer with
      | none =>
        have h1 : deliver (.invoicePaid inv) s = s := by
          simp only [deliver, reconcile, handleInvoicePaid]
          rw [hs, hfind]
        rw [h1]
      | some r =>
        have h1 : deliver (.invoicePaid inv) s
            = saveRecord s { r with is_subscribed := true } := by
          simp only [deliver, reconcile, handleInvoicePaid]
          rw [hs, hfind]
        have hmem : r ∈ s := by
          unfold findFirstRecordByData at hfind
          exact List.mem_of_find?_eq_some hfind
        rw [h1]
        exact saveRecord_preserves_customerView s r _ hids hmem rfl rfl
  | invoicePaymentFailed inv =>
    cases hs : inv.subscription with
    | none =>
      have h1 : deliver (.invoicePaymentFailed inv) s = s := by
        simp only [deliver, reconcile, handleInvoicePaymentFailed]
        rw [hs]
      rw [h1]
    | some sid =>
      cases hfind : findFirstRecordByData s inv.customer with
      | none =>
        have h1 : deliver (.invoicePaymentFailed inv) s = s := by
          simp only [deliver, reconcile, handleInvoicePaymentFailed]
          rw [hs, hfind]
        rw [h1]
      | some r =>
        have h1 : deliver (.invoicePaymentFailed inv) s
            = saveRecord s { r with is_subscribed := false } := by
          simp only [deliver, reconcile, handleInvoicePaymentFailed]
          rw [hs, hfind]
        have hmem : r ∈ s := by
          unfold findFirstRecordByData at hfind
          exact List.mem_of_find?_eq_some hfind
        rw [h1]
        exact saveRecord_preserves_customerView s r _ hids hmem rfl rfl
  | subscriptionDeleted sub =>
    cases hfind : findFirstRecordByData s sub.customer with
    | none =>
      have h1 : deliver (.subscriptionDeleted sub) s = s := by
        simp only [deliver, reconcile, handleSubscriptionDeleted]
        rw [hfind]
      rw [h1]
    | some r =>
      have h1 : deliver (.subscriptionDeleted sub) s
          = saveRecord s { r with is_subscribed := false } := by
        simp only [deliver, reconcile, handleSubscriptionDeleted]
        rw [hfind]
      have hmem : r ∈ s := by
        unfold findFirstRecordByData at hfind
        exact List.mem_of_find?_eq_some hfind
      rw [h1]
      exact saveRecord_preserves_customerView s r _ hids hmem rfl rfl

/-- Witness for C9 at a concrete input: a paid-invoice delivery over a
two-record store with distinct ids keeps both (id, customer_ref) pairs, and
provisioning a fresh record writes the new customer id. -/
theorem customerRef_never_reassigned_witness :
    (([MemberRecord.mk "m1" "a@x" "Ann" "cus_1" false "",
       MemberRecord.mk "m2" "b@x" "Bob" "cus_2" true ""].map (fun m => m.id)).Nodup) ∧
    (deliver (.invoicePaid (Invoice.mk (some "sub_9") "cus_1" []))
        [MemberRecord.mk "m1" "a@x" "Ann" "cus_1" false "",
         MemberRecord.mk "m2" "b@x" "Bob" "cus_2" true ""]).map customerView
      = [MemberRecord.mk "m1" "a@x" "Ann" "cus_1" false "",
         MemberRecord.mk "m2" "b@x" "Bob" "cus_2" true ""].map customerView ∧
    (provisionMember "cus_new" (MemberRecord.mk "m3" "c@x" "Cam" "" false "") []).2.stripe_customer_id
      = "cus_new" := by
  refine ⟨by decide, ?_, ?_⟩
  · exact (customerRef_never_reassigned (.invoicePaid (Invoice.mk (some "sub_9") "cus_1" []))
      [MemberRecord.mk "m1" "a@x" "Ann" "cus_1" false "",
       MemberRecord.mk "m2" "b@x" "Bob" "cus_2" true ""] (by decide)).1
  · exact (customerRef_never_reassigned (.other "t") [] (by decide)).2
      "cus_new" (MemberRecord.mk "m3" "c@x" "Cam" "" false "") []

/-- Embeds the `productName` computation at the top of `handleInvoicePaid` in
the part_001 snapshot: when the invoice has at least one line item whose
price is non-nil, the product is looked up through `product.Get` (external;
modelled by the `products` oracle mapping a product id to its name, `none`
standing for a failed call, which aborts the handler); otherwise
`productName` keeps the Go zero value `""`. -/
def deriveProductName (products : String → Option String) (invoice : Invoice) :
    Except ReconcileErr String :=
  match invoice.lines with
  | [] => .ok ""
  | li :: _ =>
    match li.price with
    | none => .ok ""
    | some p =>
      match products p.productId with
      | none => .error .productLookupFailed
      | some name => .ok name

/-- Embeds `handleInvoicePaid` from the part_001 snapshot: nil-subscription
guard, product-name derivation, member lookup, then `is_subscribed := true`
and `program := productName` saved back; `record.Set("program", productName)`
runs unconditionally, also when `productName` is still the zero value. -/
def handleInvoicePaidP1 (products : String → Option String) (invoice : Invoice) (s : Store) :
    Except ReconcileErr Store :=
  match invoice.subscription with
  | none => .ok s
  | some _ =>
    match deriveProductName products invoice with
    | .error e => .error e
    | .ok productName =>
      match findFirstRecordByData s invoice.customer with
      | none => .error .recordNotFound
      | some record =>
        .ok (saveRecord s { record with is_subscribed := true, program := productName })

/-- Condition of the product-lookup block in the part_001 handler: the
invoice has a first line item and it carries a price reference. -/
def firstLineHasPrice (invoice : Invoice) : Bool :=
  match invoice.lines with
  | [] => false
  | li :: _ => li.price.isSome

/-- C5 counterexample: an `invoice.paid` event with no line items (so no
product is derivable) over a record whose `program` is "boxing" does not keep
the prior value: the handler overwrites `program` with the empty string. -/
theorem invoicePaid_program_not_kept :
    handleInvoicePaidP1 (fun _ => none) (Invoice.mk (some "sub_9") "cus_1" [])
        [MemberRecord.mk "m1" "e@x" "Ann" "cus_1" false "boxing"]
      = .ok [MemberRecord.mk "m1" "e@x" "Ann" "cus_1" true ""] ∧
    handleInvoicePaidP1 (fun _ => none) (Invoice.mk (some "sub_9") "cus_1" [])
        [MemberRecord.mk "m1" "e@x" "Ann" "cus_1" false "boxing"]
      ≠ .ok [MemberRecord.mk "m1" "e@x" "Ann" "cus_1" true "boxing"] := by
  have h1 : handleInvoicePaidP1 (fun _ => none) (Invoice.mk (some "sub_9") "cus_1" [])
      [MemberRecord.mk "m1" "e@x" "Ann" "cus_1" false "boxing"]
    = .ok [MemberRecord.mk "m1" "e@x" "Ann" "cus_1" true ""] := rfl
  refine ⟨h1, ?_⟩
  intro hcon
  rw [h1, Except.ok.injEq] at hcon
  exact absurd hcon (by decide)

/-- C5 amended: for the part_001 `invoice.paid` handler, with a non-null
subscription and a matching record, `program` is set to the resolved product
name when the first line item carries a resolvable price/product, and is
overwritten with the empty string when no product reference is derivable. -/
theorem invoicePaid_program_amended (products : String → Option String)
    (inv : Invoice) (s : Store) (r : MemberRecord)
    (hsub : inv.subscription.isSome)
    (hfind : findFirstRecordByData s inv.customer = some r) :
    (∀ li rest p name, inv.lines = li :: rest → li.price = some p →
      products p.productId = some name →
      handleInvoicePaidP1 products inv s
        = .ok (saveRecord s { r with is_subscribed := true, program := name })) ∧
    (firstLineHasPrice inv = false →
      handleInvoicePaidP1 products inv s
        = .ok (saveRecord s { r with is_subscribed := true, program := "" })) := by
  obtain ⟨sid, hs⟩ := Option.isSome_iff_exists.mp hsub
  constructor
  · intro li rest p name hl hp hn
    simp only [handleInvoicePaidP1, deriveProductName, hs, hl, hp, hn, hfind]
  · intro hnone
    unfold firstLineHasPrice at hnone
    cases hl : inv.lines with
    | nil => simp only [handleInvoicePaidP1, deriveProductName, hs, hl, hfind]
    | cons li rest =>
      rw [hl] at hnone
      have hnone' : li.price.isSome = false := by simpa using hnone
      have hpn : li.price = none := by
        cases hp : li.price with
        | none => rfl
        | some p =>
          rw [hp] at hnone'
          simp at hnone'
      simp only [handleInvoicePaidP1, deriveProductName, hs, hl, hpn, hfind]

/-- Witness for the amended C5 at concrete inputs: a resolvable product sets
`program` to its name; an invoice with no line items sets `program` to "". -/
theorem invoicePaid_program_amended_witness :
    (Invoice.mk (some "sub_9") "cus_1"
        [LineItem.mk (some (PriceRef.mk "prod_1"))]).subscription.isSome ∧
    findFirstRecordByData [MemberRecord.mk "m1" "e@x" "Ann" "cus_1" false "old"] "cus_1"
      = some (MemberRecord.mk "m1" "e@x" "Ann" "cus_1" false "old") ∧
    handleInvoicePaidP1 (fun pid => if pid == "prod_1" then some "Boxing" else none)
        (Invoice.mk (some "sub_9") "cus_1" [LineItem.mk (some (PriceRef.mk "prod_1"))])
        [MemberRecord.mk "m1" "e@x" "Ann" "cus_1" false "old"]
      = .ok [MemberRecord.mk "m1" "e@x" "Ann" "cus_1" true "Boxing"] ∧
    handleInvoicePaidP1 (fun _ => none) (Invoice.mk (some "sub_8") "cus_2" [])
        [MemberRecord.mk "m2" "f@x" "Bob" "cus_2" true "old"]
      = .ok [MemberRecord.mk "m2" "f@x" "Bob" "cus_2" true ""] := by
  refine ⟨by decide, by decide, ?_, ?_⟩
  · have h := (invoicePaid_program_amended
      (fun pid => if pid == "prod_1" then some "Boxing" else none)
      (Invoice.mk (some "sub_9") "cus_1" [LineItem.mk (some (PriceRef.mk "prod_1"))])
      [MemberRecord.mk "m1" "e@x" "Ann" "cus_1" false "old"]
      (MemberRecord.mk "m1" "e@x" "Ann" "cus_1" false "old")
      (by decide) (by decide)).1
      (LineItem.mk (some (PriceRef.mk "prod_1"))) [] (PriceRef.mk "prod_1") "Boxing"
      rfl rfl (by decide)
    rw [h, Except.ok.injEq]
    decide
  · have h := (invoicePaid_program_amended (fun _ => none)
      (Invoice.mk (some "sub_8") "cus_2" [])
      [MemberRecord.mk "m2" "f@x" "Bob" "cus_2" true "old"]
      (MemberRecord.mk "m2" "f@x" "Bob" "cus_2" true "old")
      (by decide) (by decide)).2 (by decide)
    rw [h, Except.ok.injEq]
    decide

/-- Result of attempting `json.Unmarshal(event.Data.Raw, ...)` into each
typed payload shape; `none` stands for a failed unmarshal of the raw bytes
into that shape. -/
structure RawPayload where
  asInvoice : Option Invoice
  asSubscription : Option Subscription
  deriving Repr, DecidableEq

/-- A webhook event envelope after the envelope-level decode: the declared
type tag and the raw typed payload. -/
structure WebhookEvent where
  eventType : String
  raw : RawPayload
  deriving Repr, DecidableEq

/-- What a route handler returns to the HTTP layer: a plain reply, an
`echo.NewHTTPError` with an explicit status, or a raw Go `error`
(`return err`). -/
inductive HttpReply where
  | noContent (status : Nat)
  | stringBody (status : Nat) (body : String)
  | httpError (status : Nat) (message : String)
  | errReturned
  deriving Repr, DecidableEq

/-- HTTP status ultimately sent for a route's return value.  A reply carries
its own status; an `echo.NewHTTPError` carries its explicit code.  A plain Go
`error` returned from a route handler is processed by the HTTP layer's error
handler: the echo instance here is built by PocketBase's InitApi, whose
custom HTTPErrorHandler falls back to wrapping any plain error in
NewBadRequestError — HTTP 400.  This definition models that external
framework behaviour. -/
def httpStatus : HttpReply → Nat
  | .noContent st => st
  | .stringBody st _ => st
  | .httpError st _ => st
  | .errReturned => 400

/-- Client-error (400-class) status test. -/
def isClientError (st : Nat) : Bool :=
  decide (400 ≤ st) && decide (st < 500)

/-- Embeds the `/webhook` route body of `src/main.go` after envelope decode
and signature verification: the `switch event.Type` written as the
equivalent if-chain on the tag.  A typed unmarshal failure and a handler
failure both `return err` (the raw error); a handled success answers 200 No
Content with the updated store; the default branch answers 200. -/
def webhookMain (ev : WebhookEvent) (s : Store) : HttpReply × Store :=
  if ev.eventType = "invoice.paid" then
    match ev.raw.asInvoice with
    | none => (.errReturned, s)
    | some inv =>
      match handleInvoicePaid inv s with
      | .error _ => (.errReturned, s)
      | .ok s' => (.noContent 200, s')
  else if ev.eventType = "invoice.payment_failed" then
    match ev.raw.asInvoice with
    | none => (.errReturned, s)
    | some inv =>
      match handleInvoicePaymentFailed inv s with
      | .error _ => (.errReturned, s)
      | .ok s' => (.noContent 200, s')
  else if ev.eventType = "customer.subscription.deleted" then
    match ev.raw.asSubscription with
    | none => (.errReturned, s)
    | some sub =>
      match handleSubscriptionDeleted sub s with
      | .error _ => (.errReturned, s)
      | .ok s' => (.noContent 200, s')
  else
    (.stringBody 200 "Unhandled event type", s)

/-- Embeds `handleInvoicePaid` from the part_000 snapshot: guard and lookup
as in `main.go`, but the record is only `Set` in memory and never passed to
`SaveRecord`, so the store itself is unchanged on success. -/
def handleInvoicePaidP0 (invoice : Invoice) (s : Store) : Except ReconcileErr Store :=
  match invoice.subscription with
  | none => .ok s
  | some _ =>
    match findFirstRecordByData s invoice.customer with
    | none => .error .recordNotFound
    | some _ => .ok s

/-- Embeds `handleInvoicePaymentFailed` from the part_000 snapshot: like
`handleInvoicePaidP0`, no `SaveRecord` call. -/
def handleInvoicePaymentFailedP0 (invoice : Invoice) (s : Store) : Except ReconcileErr Store :=
  match invoice.subscription with
  | none => .ok s
  | some _ =>
    match findFirstRecordByData s invoice.customer with
    | none => .error .recordNotFound
    | some _ => .ok s

/-- Embeds `handleSubscriptionDeleted` from the part_000 snapshot: lookup
only, no `SaveRecord` call. -/
def handleSubscriptionDeletedP0 (sub : Subscription) (s : Store) : Except ReconcileErr Store :=
  match findFirstRecordByData s sub.customer with
  | none => .error .recordNotFound
  | some _ => .ok s

/-- Embeds the `/webhook` route body of the part_000 snapshot: a typed
unmarshal failure answers 400 Bad Request through `echo.NewHTTPError`; a
handler failure answers 500; the default branch only logs; every non-error
path ends in 200 No Content. -/
def webhookP0 (ev : WebhookEvent) (s : Store) : HttpReply × Store :=
  if ev.eventType = "invoice.paid" then
    match ev.raw.asInvoice with
    | none => (.httpError 400 "Error parsing invoice JSON", s)
    | some inv =>
      match handleInvoicePaidP0 inv s with
      | .error _ => (.httpError 500 "Error processing invoice", s)
      | .ok s' => (.noContent 200, s')
  else if ev.eventType = "invoice.payment_failed" then
    match ev.raw.asInvoice with
    | none => (.httpError 400 "Error parsing invoice JSON", s)
    | some inv =>
      match handleInvoicePaymentFailedP0 inv s with
      | .error _ => (.httpError 500 "Error processing invoice payment fail", s)
      | .ok s' => (.noContent 200, s')
  else if ev.eventType = "customer.subscription.deleted" then
    match ev.raw.asSubscription with
    | none => (.httpError 400 "Error parsing subscription JSON", s)
    | some sub =>
      match handleSubscriptionDeletedP0 sub s with
      | .error _ => (.httpError 500 "Error processing subscription deletion", s)
      | .ok s' => (.noContent 200, s')
  else
    (.noContent 200, s)

/-- A delivery whose typed payload fails JSON decoding for its declared,
handled event type. -/
def typedDecodeFails (ev : WebhookEvent) : Bool :=
  if ev.eventType = "invoice.paid" then ev.raw.asInvoice.isNone
  else if ev.eventType = "invoice.payment_failed" then ev.raw.asInvoice.isNone
  else if ev.eventType = "customer.subscription.deleted" then ev.raw.asSubscription.isNone
  else false

/-- C6: every webhook delivery whose typed payload fails JSON decoding for
its declared handled event type yields a client-error (400-class) response
and no store mutation — in the current `src/main.go` route the raw decode
error is wrapped by the HTTP layer's error handler as 400 Bad Request, and
the part_000 snapshot's route answers 400 explicitly; neither route crashes
and neither answers a 500-class status. -/
theorem webhook_decode_failure_client_error (ev : WebhookEvent) (s : Store)
    (hfail : typedDecodeFails ev = true) :
    (httpStatus (webhookMain ev s).1 = 400 ∧
     isClientError (httpStatus (webhookMain ev s).1) = true ∧
     (webhookMain ev s).2 = s) ∧
    (httpStatus (webhookP0 ev s).1 = 400 ∧
     isClientError (httpStatus (webhookP0 ev s).1) = true ∧
     (webhookP0 ev s).2 = s) := by
  unfold typedDecodeFails at hfail
  by_cases h1 : ev.eventType = "invoice.paid"
  · rw [if_pos h1] at hfail
    have hnone : ev.raw.asInvoice = none := Option.isNone_iff_eq_none.mp hfail
    simp [webhookP0, webhookMain, httpStatus, isClientError, h1, hnone]
  · rw [if_neg h1] at hfail
    by_cases h2 : ev.eventType = "invoice.payment_failed"
    · rw [if_pos h2] at hfail
      have hnone : ev.raw.asInvoice = none := Option.isNone_iff_eq_none.mp hfail
      simp [webhookP0, webhookMain, httpStatus, isClientError, h1, h2, hnone]
    · rw [if_neg h2] at hfail
      by_cases h3 : ev.eventType = "customer.subscription.deleted"
      · rw [if_pos h3] at hfail
        have hnone : ev.raw.asSubscription = none := Option.isNone_iff_eq_none.mp hfail
        simp [webhookP0, webhookMain, httpStatus, isClientError, h1, h2, h3, hnone]
      · rw [if_neg h3] at hfail
        exact absurd hfail (by simp)

/-- Witness for C6 at a concrete input: a `customer.subscription.deleted`
delivery whose payload fails the typed unmarshal gets a 400 response from
both route versions, with the store untouched. -/
theorem webhook_decode_failure_client_error_witness :
    typedDecodeFails
        (WebhookEvent.mk "customer.subscription.deleted" (RawPayload.mk none none)) = true ∧
    ((httpStatus (webhookMain
        (WebhookEvent.mk "customer.subscription.deleted" (RawPayload.mk none none)) []).1 = 400 ∧
      isClientError (httpStatus (webhookMain
        (WebhookEvent.mk "customer.subscription.deleted" (RawPayload.mk none none)) []).1) = true ∧
      (webhookMain
        (WebhookEvent.mk "customer.subscription.deleted" (RawPayload.mk none none)) []).2 = []) ∧
     (httpStatus (webhookP0
        (WebhookEvent.mk "customer.subscription.deleted" (RawPayload.mk none none)) []).1 = 400 ∧
      isClientError (httpStatus (webhookP0
        (WebhookEvent.mk "customer.subscription.deleted" (RawPayload.mk none none)) []).1) = true ∧
      (webhookP0
        (WebhookEvent.mk "customer.subscription.deleted" (RawPayload.mk none none)) []).2 = [])) := by
  refine ⟨rfl, ?_⟩
  exact webhook_decode_failure_client_error
    (WebhookEvent.mk "customer.subscription.deleted" (RawPayload.mk none none)) [] rfl

/-- The fields of a `stripe.PaymentIntent` read by `handleRevenueData`:
creation timestamp (Unix seconds), status string, and amount in minor
currency units. -/
structure PaymentIntent where
  created : Int
  status : String
  amount : Int
  deriving Repr, DecidableEq

/-- The nested Go map `map[string]map[string]int64` built by
`handleRevenueData`: absent outer keys read as no inner map; an inner month
map reads absent keys as the int64 zero value, so it is a total function. -/
abbrev RevenueMap := String → Option (String → Int)

/-- Value at a (year, month) cell, with Go's zero-value read semantics. -/
def revenueAt (rd : RevenueMap) (y mo : String) : Int :=
  match rd y with
  | none => 0
  | some innerMap => innerMap mo

/-- One iteration of the payment loop in `handleRevenueData`.  `dateOf`
models `time.Unix(payment.Created, 0)` followed by `Format("2006")` and
`Format("January")` (the Go time library, an external collaborator),
returning the (year, month) strings of a timestamp.  A succeeded payment
adds its amount at its (year, month) cell, creating the inner map when the
year is new; any other status leaves the maps untouched. -/
def recordPayment (dateOf : Int → String × String) (rd : RevenueMap) (p : PaymentIntent) :
    RevenueMap :=
  if p.status = "succeeded" then
    fun y =>
      if y = (dateOf p.created).1 then
        some (fun mo =>
          if mo = (dateOf p.created).2 then
            (match rd (dateOf p.created).1 with
             | none => (0 : Int)
             | some innerMap => innerMap (dateOf p.created).2) + p.amount
          else
            match rd (dateOf p.created).1 with
            | none => (0 : Int)
            | some innerMap => innerMap mo)
      else rd y
  else rd

/-- The full loop of `handleRevenueData` over the payment list returned for
the timeframe window, starting from the empty map. -/
def revenueData (dateOf : Int → String × String) (ps : List PaymentIntent) : RevenueMap :=
  ps.foldl (recordPayment dateOf) (fun _ => none)

/-- Concrete evaluation mirroring the spec's aggregation example: two
succeeded payments of 1000 and 2500 in March 2024 sum to 3500; a failed
payment in the same window contributes 0. -/
theorem revenueData_march_example :
    revenueAt (revenueData (fun _ => ("2024", "March"))
      [PaymentIntent.mk 1709600000 "succeeded" 1000,
       PaymentIntent.mk 1709700000 "failed" 99999,
       PaymentIntent.mk 1709800000 "succeeded" 2500]) "2024" "March" = 3500 := by
  rfl

/-- The JSON bodies the cancel-subscription route answers with. -/
inductive CancelBody where
  | errorBody (msg : String)
  | messageBody (msg : String)
  deriving Repr, DecidableEq

/-- Embeds `handleCancelSubscription` from the part_001 snapshot, after the
request-body bind: `subs` is the customer's subscription id list as iterated
from `subscription.List` (external), and `cancelOk` tells whether the
external `subscription.Cancel` call succeeds on an id.  The loop returns
inside its first iteration on both outcomes, so at most the first
subscription is ever cancelled; only an empty list reaches the 404 after
the loop.  Returns (status, body) and the ids successfully cancelled. -/
def handleCancelSubscription (cancelOk : String → Bool) (subs : List String) :
    (Nat × CancelBody) × List String :=
  match subs with
  | [] => ((404, .errorBody "No subscription found for the customer"), [])
  | subId :: _ =>
    if cancelOk subId then
      ((200, .messageBody "Subscription cancelled successfully"), [subId])
    else
      ((500, .errorBody "Failed to cancel subscription"), [])

/-- C8: with a valid customerId, an empty subscription list answers 404 with
exactly the body `error: No subscription found for the customer` and cancels
nothing; a non-empty list whose first subscription the provider accepts to
cancel answers the success message and cancels exactly that first
subscription. -/
theorem cancelSubscription_first_only (cancelOk : String → Bool) (subs : List String) :
    (subs = [] →
      handleCancelSubscription cancelOk subs
        = ((404, .errorBody "No subscription found for the customer"), [])) ∧
    (∀ s1 rest, subs = s1 :: rest → cancelOk s1 = true →
      handleCancelSubscription cancelOk subs
        = ((200, .messageBody "Subscription cancelled successfully"), [s1])) := by
  constructor
  · intro h
    subst h
    rfl
  · intro s1 rest h hok
    subst h
    simp [handleCancelSubscription, hok]

/-- Witness for C8 at concrete inputs: a customer with no subscriptions gets
the 404 body; a customer with two subscriptions gets only the first one
cancelled. -/
theorem cancelSubscription_first_only_witness :
    handleCancelSubscription (fun _ => true) []
      = ((404, CancelBody.errorBody "No subscription found for the customer"), []) ∧
    (["sub_1", "sub_2"] : List String) = "sub_1" :: ["sub_2"] ∧
    (fun (_ : String) => true) "sub_1" = true ∧
    handleCancelSubscription (fun _ => true) ["sub_1", "sub_2"]
      = ((200, CancelBody.messageBody "Subscription cancelled successfully"), ["sub_1"]) := by
  refine ⟨(cancelSubscription_first_only (fun _ => true) []).1 rfl, rfl, rfl, ?_⟩
  exact (cancelSubscription_first_only (fun _ => true) ["sub_1", "sub_2"]).2
    "sub_1" ["sub_2"] rfl rfl

/-- A dynamically-typed field value as PocketBase's generic `Record.Get`
returns it (Go `any`): a string, some non-string value, or nil when the
field is absent. -/
inductive FieldValue where
  | strVal (s : String)
  | boolVal (b : Bool)
  | nilVal
  deriving Repr, DecidableEq

/-- A generic record as the create hook sees it: its field name/value
pairs. -/
structure DynRecord where
  fields : List (String × FieldValue)
  deriving Repr, DecidableEq

/-- Embeds `Record.Get`: the stored value, nil when the field is absent. -/
def DynRecord.get (r : DynRecord) (key : String) : FieldValue :=
  match r.fields.find? (fun kv => kv.1 == key) with
  | some kv => kv.2
  | none => .nilVal

/-- Outcome of a Go computation that may panic at runtime. -/
inductive GoResult (α : Type) where
  | ok (a : α)
  | panicked
  deriving Repr, DecidableEq

/-- Go's unchecked type assertion `v.(string)`: the string, or a runtime
panic when the dynamic value is not a string (including nil). -/
def assertString : FieldValue → GoResult String
  | .strVal s => .ok s
  | _ => .panicked

/-- Embeds the field extraction at the top of the
`OnRecordAfterCreateRequest("member")` hook in `src/main.go`:
`e.Record.Get("email").(string)` then `e.Record.Get("name").(string)`, both
assertions unchecked. -/
def memberHookExtract (r : DynRecord) : GoResult (String × String) :=
  match assertString (r.get "email") with
  | .panicked => .panicked
  | .ok email =>
    match assertString (r.get "name") with
    | .panicked => .panicked
    | .ok name => .ok (email, name)

/-- C10: the provisioning hook's unchecked type assertions panic instead of
returning an error: a created record with no email field, and one whose
email holds a non-string value, both make the extraction panic before any
customer call; a well-formed record extracts normally. -/
theorem memberHook_panics_on_bad_fields :
    memberHookExtract (DynRecord.mk []) = .panicked ∧
    memberHookExtract (DynRecord.mk [("email", .boolVal true), ("name", .strVal "Ann")])
      = .panicked ∧
    memberHookExtract (DynRecord.mk [("email", .strVal "a@x"), ("name", .strVal "Ann")])
      = .ok ("a@x", "Ann") := by
  exact ⟨rfl, rfl, rfl⟩
